import Mathlib

/-!
Verification of the Infisical gateway relay session (Go package `gateway`:
`ConnectWithRelay`, `Listen`, `registerHeartBeat`, `registerPermissionLifecycle`,
`registerRelayIsActive`).

The Go code is shallowly embedded: each stateful routine becomes a pure
function from an environment (the results of its external calls, the
inputs observed at each loop iteration) to an explicit result or event
trace.  Go runtime panics (out-of-range indexing) are modelled as explicit
outcomes, and Go variable shadowing is reproduced exactly where it changes
behaviour.
-/

/-- Go errors are modelled by their message string; `none` is the nil error. -/
abbrev GoErr := String

/-- Subject fields of a peer leaf certificate read by the accept loop:
`state.PeerCertificates[0].Subject.OrganizationalUnit` (a list of strings)
and `.Subject.CommonName`. -/
structure PeerCert where
  organizationalUnit : List String
  commonName : String
deriving DecidableEq, Repr

/-- What the accept loop observes about one accepted connection:
whether the type assertion `conn.(*tls.Conn)` succeeds, the result of
`tlsConn.Handshake()`, and `state.PeerCertificates`. -/
structure AcceptedConn where
  isTlsConn : Bool
  handshakeErr : Option GoErr
  peerCertificates : List PeerCert
deriving DecidableEq, Repr

/-- Fate of an accepted connection inside the accept loop body. -/
inductive ConnOutcome where
  /-- reaches `wg.Add(1)` / `go handleConnection(c)` -/
  | dispatched
  /-- `log.Error()` followed by `conn.Close()` and `continue` -/
  | closedLogged
  /-- Go runtime panic: `organizationUnit[0]` with an empty slice -/
  | panicked
deriving DecidableEq, Repr

/-- Body of the accept loop after `relayConn.Accept()` succeeds
(`Listen`, the type assertion, handshake and certificate check).
First component: whether the certificate identity check was entered
(`len(state.PeerCertificates) > 0`).  Second: the fate of the connection. -/
def dispatchDecision (c : AcceptedConn) : Bool × ConnOutcome :=
  if c.isTlsConn = false then
    (false, .closedLogged)
  else
    match c.handshakeErr with
    | some _ => (false, .closedLogged)
    | none =>
      match c.peerCertificates with
      | [] => (false, .dispatched)
      | cert :: _ =>
        match cert.organizationalUnit with
        | [] => (true, .panicked)
        | ou0 :: _ =>
          if ou0 ≠ "gateway-client" ∨ cert.commonName ≠ "cloud" then
            (true, .closedLogged)
          else
            (true, .dispatched)

/-- A non-nil error returned by `relayConn.Accept()`: whether it is a
`net.Error` whose `Timeout()` is true, and its message. -/
structure AcceptError where
  isTimeoutNetErr : Bool
  msg : String
deriving DecidableEq, Repr

/-- What one iteration of the accept loop observes: the `select` sees the
context cancelled, the shutdown channel closed, or (default branch) the
result of `relayConn.Accept()`. -/
inductive AcceptInput where
  | ctxDone
  | shutdownSignal
  | acceptFailed (e : AcceptError)
  | accepted (c : AcceptedConn)
deriving DecidableEq, Repr

/-- Control-flow outcome of one accept-loop iteration. -/
inductive IterOutcome where
  /-- `return` out of the loop goroutine -/
  | exitLoop
  /-- `continue` with no log statement executed -/
  | retrySilent
  /-- `log.Error()` then `continue` -/
  | retryLogged
  /-- proceed to the connection-processing body -/
  | handleConn (c : AcceptedConn)
deriving DecidableEq, Repr

/-- Whether `pat` is a prefix of `s`, on character lists. -/
def startsWithChars : List Char → List Char → Bool
  | _, [] => true
  | [], _ :: _ => false
  | c :: s, p :: ps => c == p && startsWithChars s ps

/-- Whether `pat` occurs contiguously in `s`, on character lists. -/
def containsChars : List Char → List Char → Bool
  | [], pat => startsWithChars [] pat
  | c :: rest, pat => startsWithChars (c :: rest) pat || containsChars rest pat

/-- `strings.Contains s pat`. -/
def goContains (s pat : String) : Bool :=
  containsChars s.data pat.data

/-- `strings.Split s sep` for a one-character separator, on character lists. -/
def goSplitChars (sep : Char) : List Char → List (List Char)
  | [] => [[]]
  | c :: rest =>
    if c = sep then [] :: goSplitChars sep rest
    else
      match goSplitChars sep rest with
      | [] => [[c]]
      | p :: ps => (c :: p) :: ps

/-- The accept-error message fragment that is swallowed without logging. -/
def stunFrameMsg : String := "data contains incomplete STUN or TURN frame"

/-- One iteration of the accept loop in `Listen`: the `select` over
`ctx.Done()`, `shutdownCh` and the default `Accept` branch, with the
error triage (timeout check first, then the STUN/TURN frame message
check, else log) before `continue`. -/
def acceptIter : AcceptInput → IterOutcome
  | .ctxDone => .exitLoop
  | .shutdownSignal => .exitLoop
  | .acceptFailed e =>
    if e.isTimeoutNetErr then .retrySilent
    else if goContains e.msg stunFrameMsg then .retrySilent
    else .retryLogged
  | .accepted c => .handleConn c

/-- Events of the main goroutine of `Listen` once its final `select` fires. -/
inductive SessionEvent where
  /-- `close(shutdownCh)` -/
  | signalShutdown
  /-- start of the `select` over `waitCh` and `time.After(5 * time.Second)` -/
  | beginGraceWait
  /-- `waitCh` closed: all connection goroutines finished -/
  | graceComplete
  /-- `time.After` fired: warning logged, wait abandoned -/
  | graceTimeoutWarn
  /-- `return err`: the session reports itself stopped -/
  | reportStopped
deriving DecidableEq, BEq, Repr

/-- Shutdown path of `Listen` after the main `select` fires, as the ordered
trace of its events; the parameter says whether `wg.Wait()` completed
within the grace window. -/
def shutdownSequence (allFinishWithinGrace : Bool) : List SessionEvent :=
  [.signalShutdown, .beginGraceWait]
    ++ (if allFinishWithinGrace then [.graceComplete] else [.graceTimeoutWarn])
    ++ [.reportStopped]

/-- The grace window of the shutdown wait: `time.After(5 * time.Second)`. -/
def graceTimeoutSeconds : Nat := 5

/-- The per-connection watcher goroutine: closes its connection as soon as
it sees `ctx.Done()` or the closed `shutdownCh`. -/
def connWatcherCloses (ctxDone shutdownSignaled : Bool) : Bool :=
  ctxDone || shutdownSignaled

/-- What fires the final `select` of `Listen`: cancellation, or a value
(possibly nil) received from the shared error channel. -/
inductive ListenTrigger where
  | ctxDone
  | errChRecv (v : Option GoErr)
deriving DecidableEq, Repr

/-- Results of the external calls made by `Listen`, in program order, plus
what ends its main loop. -/
structure ListenEnv where
  /-- `g.client.Listen()` -/
  listenErr : Option GoErr
  /-- `g.client.AllocateTCP()` -/
  allocErr : Option GoErr
  /-- `api.CallExchangeRelayCertV1` -/
  certErr : Option GoErr
  /-- `g.config.InfisicalStaticIp` -/
  staticIp : String
  /-- `net.ResolveTCPAddr` on the static ip (reached only when nonempty) -/
  resolveStaticErr : Option GoErr
  /-- `tls.X509KeyPair` -/
  keyPairErr : Option GoErr
  trigger : ListenTrigger
  allConnsFinishWithinGrace : Bool
deriving DecidableEq, Repr

/-- Observable result of one run of `Listen`: the returned error, how many
times the relay allocation (`relayNonTlsConn`) was closed, how many times
the TURN client was closed, and whether `close(shutdownCh)` ran. -/
structure ListenResult where
  returnedErr : Option GoErr
  allocCloses : Nat
  clientCloses : Nat
  shutdownSignaled : Bool
deriving DecidableEq, Repr

/-- `Listen` as a function of its environment.  `defer g.client.Close()`
runs on every path; `defer relayNonTlsConn.Close()` is registered right
after a successful `AllocateTCP` and therefore runs exactly on the paths
that reach it.  On the `ctx.Done()` branch of the final `select` the
returned `err` is the last value assigned before the goroutine was
spawned, which is nil there; on the error-channel branch it is the
received value. -/
def listenRun (env : ListenEnv) : ListenResult :=
  match env.listenErr with
  | some e => ⟨some ("Failed to listen to relay server: " ++ e), 0, 1, false⟩
  | none =>
    match env.allocErr with
    | some e => ⟨some ("Failed to allocate relay connection: " ++ e), 0, 1, false⟩
    | none =>
      match env.certErr with
      | some e => ⟨some e, 1, 1, false⟩
      | none =>
        if env.staticIp ≠ "" ∧ env.resolveStaticErr.isSome then
          ⟨some ("Failed to parse infisical static ip: "
            ++ env.resolveStaticErr.getD ""), 1, 1, false⟩
        else
          match env.keyPairErr with
          | some e => ⟨some ("failed to parse cert: " ++ e), 1, 1, false⟩
          | none =>
            match env.trigger with
            | .ctxDone => ⟨none, 1, 1, true⟩
            | .errChRecv v => ⟨v, 1, 1, true⟩

/-- Inputs of the heartbeat goroutine (`registerHeartBeat`): the result
of the call made after the initial 10 second sleep, then the results of
the calls made at each 1 hour tick observed before `done`. -/
structure HBEnv where
  firstCallErr : Option GoErr
  tickCallErrs : List (Option GoErr)
deriving DecidableEq, Repr

/-- Observable actions of the heartbeat goroutine. -/
inductive HBEvent where
  /-- `log.Error().Msgf("Failed to register heartbeat: ...")` -/
  | logFailure (e : GoErr)
  /-- `errCh <- err` (the value sent may be nil) -/
  | push (v : Option GoErr)
deriving DecidableEq, Repr

/-- `registerHeartBeat` as the trace of its observable actions: the first
call only logs on failure, while every tick call sends its result to the
error channel unconditionally. -/
def registerHeartBeatEvents (env : HBEnv) : List HBEvent :=
  (match env.firstCallErr with
    | some e => [HBEvent.logFailure e]
    | none => [])
    ++ env.tickCallErrs.map HBEvent.push

/-- Dynamic type of a `net.Listener` value, as tested by the type
assertion in the accept loop. -/
inductive GoNetListener where
  | tcpListener
  | tlsListenerOverTurnAlloc
deriving DecidableEq, Repr

/-- The listener the accept loop runs on: `tls.NewListener(relayNonTlsConn, ...)`,
a TLS listener wrapping the TURN allocation. -/
def relayConnListener : GoNetListener := .tlsListenerOverTurnAlloc

/-- Whether the iteration prologue of the accept loop actually calls
`SetDeadline`: it does so only when the type assertion
`relayConn.(*net.TCPListener)` succeeds. -/
def deadlineSetOnIteration : GoNetListener → Bool
  | .tcpListener => true
  | .tlsListenerOverTurnAlloc => false

/-- Fields of the relay registration response used by `ConnectWithRelay`. -/
structure RelayDetails where
  turnServerAddress : String
  turnServerUsername : String
  turnServerPassword : String
  turnServerRealm : String
  infisicalStaticIp : String
deriving DecidableEq, Repr

/-- Which dial `ConnectWithRelay` performs. -/
inductive DialKind where
  | tlsDial
  | tcpDial
deriving DecidableEq, Repr

/-- Results of the external calls of `ConnectWithRelay`. -/
structure ConnectEnv where
  registerResult : Except GoErr RelayDetails
  /-- `tls.Dial` (reached only on the TLS branch) -/
  tlsDialErr : Option GoErr
  /-- `net.ResolveTCPAddr` (reached only on the plain branch) -/
  resolveErr : Option GoErr
  /-- `net.DialTCP` (reached only on the plain branch) -/
  tcpDialErr : Option GoErr
  /-- `turn.NewClient` -/
  newClientErr : Option GoErr
deriving Repr

/-- Observable events of `ConnectWithRelay`. -/
inductive ConnectEvent where
  | dialAttempt (k : DialKind)
  /-- the function returns this error -/
  | errorReturned (msg : GoErr)
  /-- Go runtime panic from `strings.Split(addr, ":")[1]` on an address
  with no colon -/
  | indexPanic
  /-- the TURN client was created and stored; `connPresent` is whether the
  `net.Conn` handed to it is non-nil -/
  | clientReady (connPresent : Bool) (staticIp : String)
deriving DecidableEq, Repr

/-- Static-ip normalisation at the end of `ConnectWithRelay`: an address
without a port is given the wildcard port `:0`. -/
def normalizeStaticIp (ip : String) : String :=
  if ip ≠ "" ∧ ¬ (ip.data.contains ':') then ip ++ ":0" else ip

/-- `ConnectWithRelay` as the trace of its observable events.  The plain
branch reproduces the Go shadowing exactly: `peerAddr, err :=` declares a
new `err` inside the `else` block, so the result of `net.DialTCP` is
assigned to the inner `err` and the outer `err` checked after the branch
is still nil; a failed plain dial therefore falls through with a nil
connection instead of returning. -/
def connectWithRelay (env : ConnectEnv) : List ConnectEvent :=
  match env.registerResult with
  | .error e => [.errorReturned e]
  | .ok rd =>
    match goSplitChars ':' rd.turnServerAddress.data with
    | _ :: relayPort :: _ =>
      if relayPort = "5349".data then
        match env.tlsDialErr with
        | some e =>
          [.dialAttempt .tlsDial,
            .errorReturned ("Failed to connect with relay server: " ++ e)]
        | none =>
          .dialAttempt .tlsDial ::
            (match env.newClientErr with
              | some e => [.errorReturned ("Failed to create relay client: " ++ e)]
              | none => [.clientReady true (normalizeStaticIp rd.infisicalStaticIp)])
      else
        match env.resolveErr with
        | some e => [.errorReturned ("Failed to parse turn server address: " ++ e)]
        | none =>
          .dialAttempt .tcpDial ::
            (match env.newClientErr with
              | some e => [.errorReturned ("Failed to create relay client: " ++ e)]
              | none =>
                [.clientReady env.tcpDialErr.isNone
                  (normalizeStaticIp rd.infisicalStaticIp)])
    | _ => [.indexPanic]

/-- Environment for `ConnectWithRelay` in which registration succeeds with a
relay address on a non-TLS port and the plain TCP dial fails. -/
def tcpDialFailEnv : ConnectEnv :=
  ⟨.ok ⟨"relay.example:3478", "user", "pass", "realm", ""⟩,
    none, none, some "connection refused", none⟩

/-- Claim C2: for a handshake-completed connection whose peer presented no
certificate at all, the accept loop performs no identity-attribute check
and dispatches the connection to the connection handler. -/
theorem no_cert_skips_check_and_dispatches :
    dispatchDecision ⟨true, none, []⟩ = (false, ConnOutcome.dispatched) := rfl

/-- Claim C10: refuted as stated; the code is at fault.  For a
handshake-completed connection whose leaf certificate has an empty
OrganizationalUnit list, the read of element 0 is out of bounds: the
accept loop panics instead of performing a total check. -/
theorem empty_ou_index_panics :
    dispatchDecision ⟨true, none, [⟨[], "cloud"⟩]⟩ = (true, ConnOutcome.panicked) := rfl

/-- Claim C1, counterexample: a leaf certificate whose OrganizationalUnit
list is empty does not satisfy the expected identity, yet the connection
is neither closed-and-logged nor dispatched — the check panics — so the
claimed dichotomy fails at this input. -/
theorem empty_ou_cert_neither_closed_nor_dispatched :
    (dispatchDecision ⟨true, none, [⟨[], "nobody"⟩]⟩).2 ≠ ConnOutcome.closedLogged ∧
    (dispatchDecision ⟨true, none, [⟨[], "nobody"⟩]⟩).2 ≠ ConnOutcome.dispatched := by
  decide

/-- Claim C1, amended: for every handshake-completed connection whose leaf
certificate has a nonempty OrganizationalUnit list, the connection is
dispatched to the handler exactly when the first OrganizationalUnit entry
equals "gateway-client" and the CommonName equals "cloud"; otherwise it is
closed with the mismatch logged and never reaches the handler. -/
theorem nonempty_ou_authorization_policy (ou0 : String) (rest : List String) (cn : String) :
    ((dispatchDecision ⟨true, none, [⟨ou0 :: rest, cn⟩]⟩).2 = ConnOutcome.dispatched
      ↔ (ou0 = "gateway-client" ∧ cn = "cloud")) ∧
    ((dispatchDecision ⟨true, none, [⟨ou0 :: rest, cn⟩]⟩).2 = ConnOutcome.dispatched
      ∨ (dispatchDecision ⟨true, none, [⟨ou0 :: rest, cn⟩]⟩).2 = ConnOutcome.closedLogged) := by
  by_cases h1 : ou0 = "gateway-client" <;> by_cases h2 : cn = "cloud" <;>
    simp [dispatchDecision, h1, h2]

/-- Claim C4: in the accept loop, a timeout error is silently retried, an
error whose message contains the incomplete STUN/TURN frame fragment is
swallowed without logging, every other accept error is logged and the
loop continues, and the loop exits exactly when cancellation or the
shutdown signal is observed. -/
theorem accept_error_handling_policy :
    (∀ e : AcceptError, acceptIter (.acceptFailed e) ≠ .exitLoop) ∧
    (∀ e : AcceptError, e.isTimeoutNetErr = true →
      acceptIter (.acceptFailed e) = .retrySilent) ∧
    (∀ e : AcceptError, e.isTimeoutNetErr = false → goContains e.msg stunFrameMsg = true →
      acceptIter (.acceptFailed e) = .retrySilent) ∧
    (∀ e : AcceptError, e.isTimeoutNetErr = false → goContains e.msg stunFrameMsg = false →
      acceptIter (.acceptFailed e) = .retryLogged) ∧
    (∀ i : AcceptInput, acceptIter i = .exitLoop ↔ (i = .ctxDone ∨ i = .shutdownSignal)) := by
  refine ⟨?_, ?_, ?_, ?_, ?_⟩
  · intro e
    cases h : e.isTimeoutNetErr <;> cases h2 : goContains e.msg stunFrameMsg <;>
      simp [acceptIter, h, h2]
  · intro e h
    simp [acceptIter, h]
  · intro e h h2
    simp [acceptIter, h, h2]
  · intro e h h2
    simp [acceptIter, h, h2]
  · intro i
    cases i with
    | ctxDone => simp [acceptIter]
    | shutdownSignal => simp [acceptIter]
    | acceptFailed e =>
      cases h : e.isTimeoutNetErr <;> cases h2 : goContains e.msg stunFrameMsg <;>
        simp [acceptIter, h, h2]
    | accepted c => simp [acceptIter]

/-- Witness for claim C4 at concrete inputs: a timeout error, a STUN/TURN
frame error and an ordinary error. -/
theorem accept_error_handling_policy_witness :
    acceptIter (.acceptFailed ⟨true, "accept tcp: i/o timeout"⟩) = .retrySilent ∧
    acceptIter (.acceptFailed
      ⟨false, "read: data contains incomplete STUN or TURN frame"⟩) = .retrySilent ∧
    acceptIter (.acceptFailed ⟨false, "connection reset by peer"⟩) = .retryLogged :=
  ⟨accept_error_handling_policy.2.1 ⟨true, "accept tcp: i/o timeout"⟩ rfl,
    accept_error_handling_policy.2.2.1
      ⟨false, "read: data contains incomplete STUN or TURN frame"⟩ rfl (by decide),
    accept_error_handling_policy.2.2.2.1 ⟨false, "connection reset by peer"⟩ rfl (by decide)⟩

/-- Claim C3: refuted as stated; the code is at fault.  The heartbeat
task sends the result of every ticker-interval call to the shared error
channel unconditionally, so even a successful hourly heartbeat (a nil
error) is pushed — and the main loop of `Listen` treats any received
value, nil included, as a shutdown trigger.  The failure of the call made
after the initial delay is only logged, never pushed. -/
theorem heartbeat_nil_push_shuts_down_session :
    registerHeartBeatEvents ⟨none, [none]⟩ = [HBEvent.push none] ∧
    (listenRun ⟨none, none, none, "", none, none, .errChRecv none, true⟩).shutdownSignaled
      = true ∧
    registerHeartBeatEvents ⟨some "heartbeat failed", []⟩
      = [HBEvent.logFailure "heartbeat failed"] := by
  refine ⟨rfl, ?_, rfl⟩
  decide

/-- Claim C5: refuted as stated; the code is at fault.  On the plain-TCP
path the dial error is assigned to a variable shadowed inside the else
block, so when `net.DialTCP` fails `ConnectWithRelay` does not return the
fatal connection error: it proceeds to create the TURN client with a nil
connection. -/
theorem tcp_dial_failure_swallowed :
    connectWithRelay tcpDialFailEnv =
      [ConnectEvent.dialAttempt .tcpDial, ConnectEvent.clientReady false ""] := by
  decide

/-- Claim C6: on the shutdown path of `Listen`, the shutdown signal is
issued before the grace-period wait begins; the session reports itself
stopped last, after either all connection tasks finish within the grace
window or the grace timeout fires, whichever happens; the grace window is
5 seconds; the accept loop exits when it observes the shutdown signal;
and the per-connection watcher force-closes its connection once the
shutdown signal is set. -/
theorem shutdown_ordering_and_grace (g : Bool) :
    (shutdownSequence g).indexOf .signalShutdown
        < (shutdownSequence g).indexOf .beginGraceWait ∧
    (shutdownSequence g).indexOf .beginGraceWait
        < (shutdownSequence g).indexOf .reportStopped ∧
    (shutdownSequence g).getLast? = some .reportStopped ∧
    (shutdownSequence g).contains .graceComplete = g ∧
    (shutdownSequence g).contains .graceTimeoutWarn = !g ∧
    acceptIter .shutdownSignal = .exitLoop ∧
    connWatcherCloses false true = true ∧
    graceTimeoutSeconds = 5 := by
  cases g <;> decide

/-- Claim C7: on every run of `Listen` in which the relay allocation
succeeds, the allocation is closed exactly once, whichever path —
cancellation, error-channel trigger, or an error return after
allocation — ends the session. -/
theorem alloc_closed_exactly_once (env : ListenEnv)
    (h1 : env.listenErr = none) (h2 : env.allocErr = none) :
    (listenRun env).allocCloses = 1 := by
  obtain ⟨le, ae, ce, si, re, ke, tr, gf⟩ := env
  simp only at h1 h2
  subst h1; subst h2
  cases ce with
  | some e => rfl
  | none =>
    by_cases hs : si ≠ "" ∧ (Option.isSome re : Prop)
    · simp [listenRun, hs]
    · simp only [listenRun, hs, if_false]
      cases ke with
      | some e => rfl
      | none => cases tr <;> rfl

/-- Witness for claim C7: the certificate-exchange failure path of a run
with a successful allocation closes the allocation once. -/
theorem alloc_closed_exactly_once_witness :
    (listenRun ⟨none, none, some "cert exchange failed", "", none, none,
      .ctxDone, true⟩).allocCloses = 1 :=
  alloc_closed_exactly_once
    ⟨none, none, some "cert exchange failed", "", none, none, .ctxDone, true⟩ rfl rfl

/-- Claim C8: refuted as stated; the code is at fault.  The accept loop
only calls `SetDeadline` when the listener type-asserts to a plain TCP
listener, but the listener in use is the TLS listener wrapping the TURN
allocation, so no accept deadline is ever set on any iteration. -/
theorem deadline_never_set_on_tls_listener :
    deadlineSetOnIteration relayConnListener = false ∧
    deadlineSetOnIteration GoNetListener.tcpListener = true :=
  ⟨rfl, rfl⟩

/-- Claim C9: for a relay server address of form host:port,
`ConnectWithRelay` attempts a TLS dial exactly when the port is 5349,
and (when address resolution succeeds) attempts a plain TCP dial exactly
when the port is any other value. -/
theorem dial_kind_by_port (env : ConnectEnv) (rd : RelayDetails)
    (host port : List Char) (rest : List (List Char))
    (hreg : env.registerResult = .ok rd)
    (hsplit : goSplitChars ':' rd.turnServerAddress.data = host :: port :: rest) :
    ((ConnectEvent.dialAttempt .tlsDial ∈ connectWithRelay env) ↔ port = "5349".data) ∧
    (env.resolveErr = none →
      ((ConnectEvent.dialAttempt .tcpDial ∈ connectWithRelay env) ↔ port ≠ "5349".data)) := by
  obtain ⟨reg, tlsE, resE, tcpE, ncE⟩ := env
  simp only at hreg
  subst hreg
  simp only [connectWithRelay]
  rw [hsplit]
  by_cases hp : port = "5349".data
  · cases tlsE <;> cases ncE <;> simp [hp]
  · cases resE <;> cases ncE <;> simp [hp]

/-- Witness for claim C9: a relay address on port 5349 leads to a TLS
dial attempt. -/
theorem dial_kind_by_port_witness :
    ConnectEvent.dialAttempt .tlsDial ∈
      connectWithRelay ⟨.ok ⟨"relay.example:5349", "u", "p", "r", ""⟩,
        none, none, none, none⟩ :=
  (dial_kind_by_port
    ⟨.ok ⟨"relay.example:5349", "u", "p", "r", ""⟩, none, none, none, none⟩
    ⟨"relay.example:5349", "u", "p", "r", ""⟩
    "relay.example".data "5349".data [] rfl (by decide)).1.mpr (by decide)
